import Mathlib

/-
Verification of the WACMS case lifecycle engine.

The definitions below are a shallow embedding, translated from the
JavaScript source of the repository:
  - backend/src/config/constants.js        (TRANSITIONS, SLA_DEFAULTS, enums)
  - backend/src/services/workflow.service.js
  - backend/src/services/audit.service.js
  - backend/src/routes/cases routes        (status, assign, update handlers,
                                            calculateSlaDueDate, sla_status)
  - backend/src/middleware/rbac.js         (requireManager)

Statuses, roles, priorities and categories are strings, exactly as in the
source.  JavaScript object property access by string key is modelled by
association-list lookup (alookup); undefined becomes Option.none.
Timestamps are naturals (milliseconds) for the SLA due-date computation and
integers (seconds) for the SQL sla_status classification, with the interval
constants translated accordingly.  The denial reason strings built by
canTransition interpolate exactly three data: the source status, the list
of valid destinations, and the list of required roles; they are modelled
structurally by DenyReason, which records those same data per branch.
Definitions whose names end in Spec are written from the claim text, to be
compared with the definitions taken from the source.
-/

namespace WACMS

/-- JavaScript object property access by string key over a literal object,
modelled as association-list lookup; a missing key (undefined) is none. -/
def alookup {α : Type} (k : String) : List (String × α) → Option α
  | [] => none
  | (k2, v) :: rest => if k = k2 then some v else alookup k rest

/-- constants.js STATUS values, in declaration order. -/
def STATUS_VALUES : List String :=
  ["Created", "Assigned", "In Progress", "Under Review", "Closed"]

/-- constants.js PRIORITY values, in declaration order. -/
def PRIORITY_VALUES : List String :=
  ["Low", "Medium", "High", "Critical"]

/-- constants.js CATEGORY values, in declaration order. -/
def CATEGORY_VALUES : List String :=
  ["IT", "HR", "Finance", "Compliance", "Other"]

/-- constants.js TRANSITIONS: fromStatus to (toStatus to allowedRoles),
keys in declaration (insertion) order. -/
def TRANSITIONS : List (String × List (String × List String)) :=
  [ ("Created", [("Assigned", ["manager", "admin"])]),
    ("Assigned", [("In Progress", ["analyst"])]),
    ("In Progress", [("Under Review", ["analyst"])]),
    ("Under Review", [("Closed", ["manager", "admin"]),
                      ("In Progress", ["manager", "admin"])]) ]

/-- constants.js SLA_DEFAULTS (hours per priority). -/
def SLA_DEFAULTS : List (String × Nat) :=
  [("Low", 72), ("Medium", 48), ("High", 24), ("Critical", 4)]

/-- The three denial reason shapes produced by canTransition.  The source
builds a reason string per branch; each string interpolates exactly the data
recorded in the corresponding constructor here. -/
inductive DenyReason where
  | noTransitionsFrom (src : String)
  | invalidEdge (src tgt : String) (validDestinations : List String)
  | unauthorizedRole (role : String) (requiredRoles : List String)
deriving DecidableEq

/-- Result of workflow.service.js canTransition:
either valid, or invalid with a reason. -/
inductive TransitionResult where
  | allowed
  | denied (reason : DenyReason)
deriving DecidableEq

/-- workflow.service.js WorkflowService.canTransition. -/
def canTransition (currentStatus targetStatus userRole : String) :
    TransitionResult :=
  match alookup currentStatus TRANSITIONS with
  | none => .denied (.noTransitionsFrom currentStatus)
  | some edges =>
    match alookup targetStatus edges with
    | none => .denied (.invalidEdge currentStatus targetStatus
        (edges.map Prod.fst))
    | some allowedRoles =>
      if userRole ∈ allowedRoles then .allowed
      else .denied (.unauthorizedRole userRole allowedRoles)

/-- Helper for the claim-side policy: the edge exists, check the role set. -/
def roleCheck (role : String) (requiredRoles : List String) :
    TransitionResult :=
  if role ∈ requiredRoles then .allowed
  else .denied (.unauthorizedRole role requiredRoles)

/-- Claim-side transition policy, written from the claim text of C1: the
five declared edges with their authorized role sets, denial reason (a) when
the source has no declared outgoing edges at all, reason (b) with the valid
destinations enumerated when the edge is undeclared, reason (c) with the
required roles named when the role is unauthorized. -/
def canTransitionSpec (src tgt role : String) : TransitionResult :=
  if src = "Created" then
    if tgt = "Assigned" then roleCheck role ["manager", "admin"]
    else .denied (.invalidEdge src tgt ["Assigned"])
  else if src = "Assigned" then
    if tgt = "In Progress" then roleCheck role ["analyst"]
    else .denied (.invalidEdge src tgt ["In Progress"])
  else if src = "In Progress" then
    if tgt = "Under Review" then roleCheck role ["analyst"]
    else .denied (.invalidEdge src tgt ["Under Review"])
  else if src = "Under Review" then
    if tgt = "Closed" then roleCheck role ["manager", "admin"]
    else if tgt = "In Progress" then roleCheck role ["manager", "admin"]
    else .denied (.invalidEdge src tgt ["Closed", "In Progress"])
  else .denied (.noTransitionsFrom src)

/-- C1: for every (from, to, role) triple, canTransition returns Allowed
exactly on the five declared edges with an authorized role, and otherwise
returns Denied with the reason the claim prescribes: no outgoing edges from
the source, an undeclared edge together with the valid destinations from
the source, or an unauthorized role together with the required roles. -/
theorem canTransition_matches_spec (src tgt role : String) :
    canTransition src tgt role = canTransitionSpec src tgt role := by
  simp only [canTransition, canTransitionSpec, alookup, TRANSITIONS, roleCheck]
  split_ifs <;> simp_all [alookup]

/-- workflow.service.js getAvailableTransitions loop body: walk the entries
of the transition row in declaration order, pushing each target status whose
allowed roles include the user role. -/
def collectAvailable (userRole : String) :
    List (String × List String) → List String
  | [] => []
  | (tgt, allowedRoles) :: rest =>
    if userRole ∈ allowedRoles then tgt :: collectAvailable userRole rest
    else collectAvailable userRole rest

/-- workflow.service.js WorkflowService.getAvailableTransitions. -/
def getAvailableTransitions (currentStatus userRole : String) : List String :=
  match alookup currentStatus TRANSITIONS with
  | none => []
  | some edges => collectAvailable userRole edges

/-- Claim-side available transitions, written from the claim text of C8:
for each status, the declared edges out of it in declaration order, each
kept exactly when its authorized role set contains the role; the empty
sequence for Closed and for any other status without declared edges. -/
def getAvailableTransitionsSpec (src role : String) : List String :=
  if src = "Created" then
    if role ∈ ["manager", "admin"] then ["Assigned"] else []
  else if src = "Assigned" then
    if role ∈ ["analyst"] then ["In Progress"] else []
  else if src = "In Progress" then
    if role ∈ ["analyst"] then ["Under Review"] else []
  else if src = "Under Review" then
    (if role ∈ ["manager", "admin"] then ["Closed"] else [])
      ++ (if role ∈ ["manager", "admin"] then ["In Progress"] else [])
  else []

/-- C8: for every status and role, getAvailableTransitions returns exactly
the declared edges out of the status whose authorized role set contains the
role, in declaration order of the transition table; in particular the empty
sequence for Closed and for a role matching no edge. -/
theorem getAvailableTransitions_matches_spec (src role : String) :
    getAvailableTransitions src role = getAvailableTransitionsSpec src role := by
  simp only [getAvailableTransitions, getAvailableTransitionsSpec, alookup,
    TRANSITIONS, collectAvailable]
  split_ifs <;> simp_all [collectAvailable]

/-- A row of the cases table, with the columns the lifecycle engine reads
and writes (cases routes; snake_case columns camelCased). -/
structure CaseRow where
  id : Nat
  title : String
  description : String
  category : String
  priority : String
  status : String
  assignedTo : Option Nat
  createdBy : Nat
  slaDueAt : Nat
  createdAt : Nat
  updatedAt : Nat
deriving DecidableEq

/-- The details JSON payloads passed to the audit log at the call sites of
the cases routes: empty, assignment info (assigneeName), the auto-transition
reason tag, or the set of edited case fields. -/
inductive AuditDetails where
  | empty
  | assignmentInfo (assigneeName : String)
  | autoTransition (reason : String)
  | caseChanges (title description category priority : Option String)
deriving DecidableEq

/-- A row of the case_audit_log table, as inserted by AuditService.log. -/
structure AuditEntry where
  caseId : Nat
  action : String
  previousStatus : Option String
  newStatus : Option String
  previousAssignee : Option Nat
  newAssignee : Option Nat
  performedBy : Nat
  details : AuditDetails
deriving DecidableEq

/-- audit.service.js AuditService.logStatusChange. -/
def logStatusChange (caseId : Nat) (previousStatus newStatus : String)
    (performedBy : Nat) (details : AuditDetails) : AuditEntry :=
  { caseId := caseId, action := "STATUS_CHANGED",
    previousStatus := some previousStatus, newStatus := some newStatus,
    previousAssignee := none, newAssignee := none,
    performedBy := performedBy, details := details }

/-- audit.service.js AuditService.logAssignment. -/
def logAssignment (caseId : Nat) (previousAssignee : Option Nat)
    (newAssignee : Nat) (performedBy : Nat) (details : AuditDetails) :
    AuditEntry :=
  { caseId := caseId, action := "CASE_ASSIGNED",
    previousStatus := none, newStatus := none,
    previousAssignee := previousAssignee, newAssignee := some newAssignee,
    performedBy := performedBy, details := details }

/-- audit.service.js AuditService.logCaseUpdate. -/
def logCaseUpdate (caseId : Nat) (performedBy : Nat)
    (details : AuditDetails) : AuditEntry :=
  { caseId := caseId, action := "CASE_UPDATED",
    previousStatus := none, newStatus := none,
    previousAssignee := none, newAssignee := none,
    performedBy := performedBy, details := details }

/-- The state a case-mutating request touches: the case row and the
append-only audit ledger for that case. -/
structure SysState where
  caseRow : CaseRow
  auditLog : List AuditEntry
deriving DecidableEq

/-- workflow.service.js WorkflowService.validateTransitionRequirements:
the errors array, built in source order (the JavaScript falsy test on
assigned_to is the none test, user ids being positive). -/
def validateTransitionRequirements (caseData : CaseRow)
    (targetStatus : String) : List String :=
  (if targetStatus = "Assigned" ∧ caseData.assignedTo = none then
    ["Case must have an assignee before setting status to Assigned"]
  else [])
  ++ (if targetStatus = "Closed" ∧ caseData.status ≠ "Under Review" then
    ["Case must be Under Review before closing"]
  else [])

/-- C5: for every case and target status, validateTransitionRequirements
returns a violation exactly when the target is Assigned with no assignee on
the case, or the target is Closed with the current status not Under Review;
an empty list means pass.  The validator never consults the transition
policy, so a Closed target with current status not Under Review is rejected
regardless of policy approval. -/
theorem validateTransitionRequirements_iff (caseData : CaseRow)
    (targetStatus : String) :
    validateTransitionRequirements caseData targetStatus ≠ [] ↔
      (targetStatus = "Assigned" ∧ caseData.assignedTo = none)
        ∨ (targetStatus = "Closed" ∧ caseData.status ≠ "Under Review") := by
  unfold validateTransitionRequirements
  split_ifs <;> simp_all

/-- The HTTP-level outcomes of the case route handlers, by response branch. -/
inductive Response where
  | ok
  | validationFailed
  | forbiddenTransition (reason : DenyReason)
  | requirementsNotMet (errors : List String)
  | notFound
  | roleMismatch
  | forbiddenRole
  | forbiddenEdit
  | noFieldsToUpdate
  | infrastructureFailure
deriving DecidableEq

/-- cases routes calculateSlaDueDate: hours from SLA_DEFAULTS with the
JavaScript fallback to 48 for a missing priority, added to the current
time (the route reads new Date(); the clock is passed explicitly here).
Timestamps in milliseconds, so an hour is 3600000. -/
def calculateSlaDueDate (priority : String) (now : Nat) : Nat :=
  now + 3600000 * ((alookup priority SLA_DEFAULTS).getD 48)

/-- The PUT /api/cases/:id/status handler: express status-shape validation,
canTransition, validateTransitionRequirements, then the UPDATE of the case
row followed by the separate audit INSERT.  auditOk models whether that
audit INSERT succeeds; the row UPDATE has already been issued
unconditionally before it, with no surrounding transaction, so an audit
failure surfaces as an error after the row change is durable. -/
def putCaseStatus (st : SysState) (targetStatus : String) (actorId : Nat)
    (actorRole : String) (now : Nat) (auditOk : Bool) : Response × SysState :=
  if targetStatus ∉ STATUS_VALUES then (.validationFailed, st)
  else
    match canTransition st.caseRow.status targetStatus actorRole with
    | .denied reason => (.forbiddenTransition reason, st)
    | .allowed =>
      if validateTransitionRequirements st.caseRow targetStatus ≠ [] then
        (.requirementsNotMet (validateTransitionRequirements st.caseRow
          targetStatus), st)
      else
        let updated := { st.caseRow with
          status := targetStatus
          updatedAt := now }
        if auditOk then
          (.ok, { caseRow := updated, auditLog := st.auditLog
            ++ [logStatusChange st.caseRow.id st.caseRow.status targetStatus
                 actorId .empty] })
        else
          (.infrastructureFailure,
            { caseRow := updated, auditLog := st.auditLog })

/-- The PUT /api/cases/:id/assign handler: requireManager middleware, the
assignee existence and analyst-role checks against the user directory
(passed as arguments), the single UPDATE writing assignee and the possibly
auto-advanced status, then one or two audit appends. -/
def putCaseAssign (st : SysState) (assigneeId : Nat) (assigneeExists : Bool)
    (assigneeRole assigneeName : String) (actorId : Nat) (actorRole : String)
    (now : Nat) : Response × SysState :=
  if ¬ (actorRole = "manager" ∨ actorRole = "admin") then (.forbiddenRole, st)
  else if ¬ assigneeExists then (.notFound, st)
  else if assigneeRole ≠ "analyst" then (.roleMismatch, st)
  else
    let c := st.caseRow
    let previousAssignee := c.assignedTo
    let newStatus := if c.status = "Created" then "Assigned" else c.status
    let updated := { c with
      assignedTo := some assigneeId
      status := newStatus
      updatedAt := now }
    let log1 := st.auditLog ++ [logAssignment c.id previousAssignee assigneeId
      actorId (.assignmentInfo assigneeName)]
    let log2 := if newStatus ≠ c.status then
        log1 ++ [logStatusChange c.id c.status newStatus actorId
          (.autoTransition "Auto-transitioned on assignment")]
      else log1
    (.ok, { caseRow := updated, auditLog := log2 })

/-- express-validator optional notEmpty: present but empty. -/
def optionEmptyString (v : Option String) : Bool :=
  match v with
  | some s => s == ""
  | none => false

/-- express-validator optional isIn: present but outside the allowed set. -/
def optionNotIn (v : Option String) (allowed : List String) : Bool :=
  match v with
  | some s => !(decide (s ∈ allowed))
  | none => false

/-- The PUT /api/cases/:id handler: express shape validation of the
optional fields, the owner/assignee/manager edit permission, the
no-fields-to-update guard, then the UPDATE (recomputing sla_due_at exactly
when priority is present in the request) and the audit append. -/
def putCaseUpdate (st : SysState)
    (title description category priority : Option String)
    (actorId : Nat) (actorRole : String) (now : Nat) : Response × SysState :=
  if optionEmptyString title || optionNotIn category CATEGORY_VALUES
      || optionNotIn priority PRIORITY_VALUES
  then (.validationFailed, st)
  else
    let c := st.caseRow
    if ¬ (c.createdBy = actorId ∨ c.assignedTo = some actorId
        ∨ actorRole = "manager" ∨ actorRole = "admin") then
      (.forbiddenEdit, st)
    else if title = none ∧ description = none ∧ category = none
        ∧ priority = none then
      (.noFieldsToUpdate, st)
    else
      let updated := { c with
        title := title.getD c.title,
        description := description.getD c.description,
        category := category.getD c.category,
        priority := priority.getD c.priority,
        slaDueAt := match priority with
          | some p => calculateSlaDueDate p now
          | none => c.slaDueAt,
        updatedAt := now }
      (.ok, { caseRow := updated, auditLog := st.auditLog
        ++ [logCaseUpdate c.id actorId
             (.caseChanges title description category priority)] })

/-- The sla_status CASE expression of the GET /api/cases query, clauses in
source order.  Timestamps in seconds (the SQL intervals 1h, 2h, 6h and 12h
become 3600, 7200, 21600 and 43200); integers so that times before an
epoch are expressible. -/
def slaStatus (now slaDueAt : Int) (priority status : String) : String :=
  if status = "Closed" then "closed"
  else if slaDueAt < now then "overdue"
  else if priority = "Critical" ∧ slaDueAt < now + 3600 then "at_risk"
  else if priority = "High" ∧ slaDueAt < now + 7200 then "at_risk"
  else if priority = "Medium" ∧ slaDueAt < now + 21600 then "at_risk"
  else if priority = "Low" ∧ slaDueAt < now + 43200 then "at_risk"
  else "on_track"

/-- Claim-side risk windows of C6, in seconds per priority. -/
def riskWindowSpec (priority : String) : Int :=
  if priority = "Critical" then 3600
  else if priority = "High" then 7200
  else if priority = "Medium" then 21600
  else if priority = "Low" then 43200
  else 0

/-- Claim-side classification, written from the claim text of C6 with the
one amendment the counterexample forces: the overdue clause fires for
now strictly past the due time, not at equality. -/
def classifySpec (now slaDueAt : Int) (priority status : String) : String :=
  if status = "Closed" then "closed"
  else if now > slaDueAt then "overdue"
  else if slaDueAt - now < riskWindowSpec priority then "at_risk"
  else "on_track"

/-- A concrete case in review, for exercising the status and assignment
routes: analyst 3 assigned, created by user 7. -/
def reviewCase : CaseRow :=
  { id := 1
    title := "printer down"
    description := "b2"
    category := "IT"
    priority := "High"
    status := "Under Review"
    assignedTo := some 3
    createdBy := 7
    slaDueAt := 86400000
    createdAt := 0
    updatedAt := 1000 }

/-- The review case together with its (empty) audit ledger. -/
def reviewState : SysState := { caseRow := reviewCase, auditLog := [] }

/-- C2: the status route issues the case UPDATE first and the audit INSERT
second with no transaction around them, so when the audit write fails the
handler reports an infrastructure failure while the status change has
already become durable and no audit entry exists — the update and the audit
append do not form one durable unit, contradicting the atomicity the
specification requires. -/
theorem statusChange_auditFailure_not_atomic :
    (putCaseStatus reviewState "Closed" 9 "manager" 2000 false).1
        = Response.infrastructureFailure
      ∧ (putCaseStatus reviewState "Closed" 9 "manager" 2000 false).2.caseRow.status
        = "Closed"
      ∧ (putCaseStatus reviewState "Closed" 9 "manager" 2000 false).2.auditLog
        = [] := by
  decide

/-- A concrete freshly created, unassigned case, for exercising the
assignment route. -/
def createdCase : CaseRow :=
  { id := 4
    title := "vpn access"
    description := "b4"
    category := "IT"
    priority := "Medium"
    status := "Created"
    assignedTo := none
    createdBy := 7
    slaDueAt := 172800000
    createdAt := 0
    updatedAt := 1000 }

/-- The created case together with its (empty) audit ledger. -/
def createdState : SysState := { caseRow := createdCase, auditLog := [] }

/-- C3: assigning an analyst to a case whose status is Created, by a
manager or admin, sets the assignee, auto-advances the status to Assigned
(no call to canTransition gates this), and appends exactly two audit
entries in order: the assignment entry, then a status-change entry whose
details carry the reason tagging it as an automatic consequence of
assignment. -/
theorem assign_created_two_entries (st : SysState)
    (assigneeId actorId now : Nat) (assigneeName actorRole : String)
    (hrole : actorRole = "manager" ∨ actorRole = "admin")
    (hstatus : st.caseRow.status = "Created") :
    (putCaseAssign st assigneeId true "analyst" assigneeName actorId actorRole
        now).1 = Response.ok
      ∧ (putCaseAssign st assigneeId true "analyst" assigneeName actorId
          actorRole now).2.caseRow.assignedTo = some assigneeId
      ∧ (putCaseAssign st assigneeId true "analyst" assigneeName actorId
          actorRole now).2.caseRow.status = "Assigned"
      ∧ (putCaseAssign st assigneeId true "analyst" assigneeName actorId
          actorRole now).2.auditLog
        = st.auditLog
          ++ [logAssignment st.caseRow.id st.caseRow.assignedTo assigneeId
                actorId (.assignmentInfo assigneeName),
              logStatusChange st.caseRow.id "Created" "Assigned" actorId
                (.autoTransition "Auto-transitioned on assignment")] := by
  rcases hrole with h | h <;>
    subst h <;>
    simp [putCaseAssign, hstatus]

/-- Witness for C3 at a concrete input: the hypotheses hold at
createdState with a manager actor, and the case ends Assigned. -/
theorem assign_created_two_entries_witness :
    createdState.caseRow.status = "Created"
      ∧ (putCaseAssign createdState 3 true "analyst" "Ana" 9 "manager"
          5000).2.caseRow.status = "Assigned" :=
  ⟨rfl, (assign_created_two_entries createdState 3 9 5000 "Ana" "manager"
    (Or.inl rfl) rfl).2.2.1⟩

/-- C4 counterexample: re-assigning a non-Created case with all the claim
preconditions satisfied changes a field other than the assignee — the
UPDATE also writes updated_at = NOW(), so the update timestamp moves. -/
theorem reassign_changes_updatedAt :
    reviewState.caseRow.status ≠ "Created"
      ∧ (putCaseAssign reviewState 5 true "analyst" "Ana" 9 "manager"
          2000).2.caseRow.assignedTo = some 5
      ∧ (putCaseAssign reviewState 5 true "analyst" "Ana" 9 "manager"
          2000).2.caseRow.updatedAt ≠ reviewState.caseRow.updatedAt := by
  decide

/-- C4 as amended: re-assigning a case whose status is not Created changes
only the assignee and the update timestamp — status and every other field
are unchanged — and appends exactly one audit entry, which records the
previous assignee (also when it was none). -/
theorem reassign_one_entry_frame (st : SysState)
    (assigneeId actorId now : Nat) (assigneeName actorRole : String)
    (hrole : actorRole = "manager" ∨ actorRole = "admin")
    (hstatus : st.caseRow.status ≠ "Created") :
    (putCaseAssign st assigneeId true "analyst" assigneeName actorId actorRole
        now).1 = Response.ok
      ∧ (putCaseAssign st assigneeId true "analyst" assigneeName actorId
          actorRole now).2.caseRow
        = { st.caseRow with
            assignedTo := some assigneeId
            updatedAt := now }
      ∧ (putCaseAssign st assigneeId true "analyst" assigneeName actorId
          actorRole now).2.auditLog
        = st.auditLog
          ++ [logAssignment st.caseRow.id st.caseRow.assignedTo assigneeId
                actorId (.assignmentInfo assigneeName)] := by
  rcases hrole with h | h <;>
    subst h <;>
    simp [putCaseAssign, hstatus]

/-- Witness for the amended C4 at a concrete input: the case in review is
not Created, and re-assignment leaves its status unchanged while the log
gains the single assignment entry recording the previous assignee. -/
theorem reassign_one_entry_frame_witness :
    reviewState.caseRow.status ≠ "Created"
      ∧ (putCaseAssign reviewState 5 true "analyst" "Ana" 9 "manager"
          2000).2.auditLog
        = reviewState.auditLog
          ++ [logAssignment reviewState.caseRow.id
                reviewState.caseRow.assignedTo 5 9
                (.assignmentInfo "Ana")] :=
  ⟨by decide, (reassign_one_entry_frame reviewState 5 9 2000 "Ana" "manager"
    (Or.inl rfl) (by decide)).2.2⟩

/-- C6 counterexample: at now exactly equal to the due time (not Closed,
Critical), the claim prescribes the overdue variant, but the source
condition sla_due_at < NOW() is strict, so the row classifies as at_risk. -/
theorem slaStatus_boundary :
    (1000 : Int) ≥ 1000
      ∧ "Created" ≠ "Closed"
      ∧ slaStatus 1000 1000 "Critical" "Created" = "at_risk"
      ∧ slaStatus 1000 1000 "Critical" "Created" ≠ "overdue" := by
  decide

/-- C6 as amended: with status Closed the result is closed regardless of
the due time; otherwise with now strictly past the due time (rather than
the claimed now ≥ dueAt) the result is overdue; otherwise at_risk exactly
when the time remaining is below the priority risk window (Critical 1h,
High 2h, Medium 6h, Low 12h), else on_track.  In particular Critical with
half an hour remaining is at_risk and Critical one second past due is
overdue. -/
theorem slaStatus_amended :
    (∀ (now slaDueAt : Int) (priority status : String),
        priority ∈ ["Critical", "High", "Medium", "Low"] →
        slaStatus now slaDueAt priority status
          = classifySpec now slaDueAt priority status)
      ∧ slaStatus 0 1800 "Critical" "Created" = "at_risk"
      ∧ slaStatus 0 (-1) "Critical" "Created" = "overdue"
      ∧ (∀ (now slaDueAt : Int) (priority : String),
          slaStatus now slaDueAt priority "Closed" = "closed") := by
  refine ⟨?_, by decide, by decide, ?_⟩
  · intro now slaDueAt priority status hp
    simp only [List.mem_cons, List.not_mem_nil, or_false] at hp
    rcases hp with rfl | rfl | rfl | rfl
    all_goals
      simp only [slaStatus, classifySpec, riskWindowSpec]
    all_goals
      split_ifs <;> simp_all <;> omega
  · intro now slaDueAt priority
    simp [slaStatus]

/-- Witness for the amended C6 at a concrete input: Critical is one of the
four priorities, and the source classification agrees with the amended
claim there. -/
theorem slaStatus_amended_witness :
    ("Critical" : String) ∈ ["Critical", "High", "Medium", "Low"]
      ∧ slaStatus 5 10000 "Critical" "Assigned"
        = classifySpec 5 10000 "Critical" "Assigned" :=
  ⟨by decide, slaStatus_amended.1 5 10000 "Critical" "Assigned" (by decide)⟩

/-- C9: the SLA due date is the given clock reading plus the tabulated
hours for the priority — Low 72, Medium 48, High 24, Critical 4 — and 48
hours for a priority outside the table. -/
theorem calculateSlaDueDate_table (t : Nat) :
    calculateSlaDueDate "Low" t = t + 72 * 3600000
      ∧ calculateSlaDueDate "Medium" t = t + 48 * 3600000
      ∧ calculateSlaDueDate "High" t = t + 24 * 3600000
      ∧ calculateSlaDueDate "Critical" t = t + 4 * 3600000
      ∧ ∀ p : String, p ∉ ["Low", "Medium", "High", "Critical"] →
          calculateSlaDueDate p t = t + 48 * 3600000 := by
  refine ⟨rfl, rfl, rfl, rfl, ?_⟩
  intro p hp
  simp only [List.mem_cons, List.not_mem_nil, or_false, not_or] at hp
  obtain ⟨h1, h2, h3, h4⟩ := hp
  simp [calculateSlaDueDate, alookup, SLA_DEFAULTS, h1, h2, h3, h4]

/-- Witness for C9 at a concrete input: the string Urgent is outside the
priority table, and its due date defaults to 48 hours from the clock. -/
theorem calculateSlaDueDate_table_witness :
    ("Urgent" : String) ∉ ["Low", "Medium", "High", "Critical"]
      ∧ calculateSlaDueDate "Urgent" 0 = 0 + 48 * 3600000 :=
  ⟨by decide, (calculateSlaDueDate_table 0).2.2.2.2 "Urgent" (by decide)⟩

/-- C7: a case update carrying a priority recomputes the stored SLA due
date as the request clock reading plus the SLA hours of that priority —
the edit moment, with no dependence on the original creation time or on
the previously stored due date. -/
theorem priorityEdit_restarts_sla (st : SysState) (p : String)
    (actorId now : Nat) (actorRole : String)
    (hp : p ∈ PRIORITY_VALUES)
    (hrole : actorRole = "manager" ∨ actorRole = "admin") :
    (putCaseUpdate st none none none (some p) actorId actorRole now).1
        = Response.ok
      ∧ (putCaseUpdate st none none none (some p) actorId actorRole
          now).2.caseRow.priority = p
      ∧ (putCaseUpdate st none none none (some p) actorId actorRole
          now).2.caseRow.slaDueAt = calculateSlaDueDate p now := by
  rcases hrole with h | h <;>
    subst h <;>
    simp [putCaseUpdate, optionEmptyString, optionNotIn, hp]

/-- Witness for C7 at a concrete input: editing the review case (High,
due at 86400000) to Critical at clock 5000000 restarts the window from
the edit moment. -/
theorem priorityEdit_restarts_sla_witness :
    ("Critical" : String) ∈ PRIORITY_VALUES
      ∧ (putCaseUpdate reviewState none none none (some "Critical") 9
          "manager" 5000000).2.caseRow.slaDueAt
        = calculateSlaDueDate "Critical" 5000000 :=
  ⟨by decide, (priorityEdit_restarts_sla reviewState "Critical" 9 5000000
    "manager" (by decide) (Or.inl rfl)).2.2⟩

/-- C10: a case update whose priority field equals the current priority of
the case still recomputes the stored SLA due date from the request clock
reading — the window restarts although the priority value did not change,
because the handler tests only presence of the field. -/
theorem priorityUnchangedEdit_restarts_sla (st : SysState)
    (actorId now : Nat) (actorRole : String)
    (hp : st.caseRow.priority ∈ PRIORITY_VALUES)
    (hrole : actorRole = "manager" ∨ actorRole = "admin") :
    (putCaseUpdate st none none none (some st.caseRow.priority) actorId
        actorRole now).1 = Response.ok
      ∧ (putCaseUpdate st none none none (some st.caseRow.priority) actorId
          actorRole now).2.caseRow.priority = st.caseRow.priority
      ∧ (putCaseUpdate st none none none (some st.caseRow.priority) actorId
          actorRole now).2.caseRow.slaDueAt
        = calculateSlaDueDate st.caseRow.priority now := by
  rcases hrole with h | h <;>
    subst h <;>
    simp [putCaseUpdate, optionEmptyString, optionNotIn, hp]

/-- Witness for C10 at a concrete input: resubmitting the review case with
its current priority High at clock 5000000 moves the stored due date from
86400000 to 5000000 plus 24 hours, although the priority is unchanged. -/
theorem priorityUnchangedEdit_restarts_sla_witness :
    reviewState.caseRow.priority ∈ PRIORITY_VALUES
      ∧ (putCaseUpdate reviewState none none none
          (some reviewState.caseRow.priority) 9 "manager"
          5000000).2.caseRow.slaDueAt
        = calculateSlaDueDate reviewState.caseRow.priority 5000000 :=
  ⟨by decide, (priorityUnchangedEdit_restarts_sla reviewState 9 5000000
    "manager" (by decide) (Or.inl rfl)).2.2⟩

end WACMS
